import Mathlib

/-!
Shallow embedding of `src/android.py` (the single module of the
`android-bot` repository) and verification of the frozen claims about it.

Modelling conventions:
* Machine-level collaborators (HTTP fetch, the Gemini SDK call, `json.loads`
  applied to the AI response, the Telegram SDK) are external; they enter the
  model as explicit parameters: the fetched record lists, an
  `Option String` for the AI call (`none` = the call raised), a
  `decode : String → JsonOutcome` for `json.loads` on the extracted
  substring, and outbound Telegram messages are collected in a list.
* The state file `state.json` is modelled at the JSON level: the file is
  `absent`, `corrupt` (unreadable / unparsable), or `good s` holding the
  decoded document.  `json.dump`/`json.load` round-tripping is the external
  serializer's contract.
* Python string operations used by the code (`find`, `rfind`, slicing with
  negative indices, `split`, `strip`) are embedded faithfully below.
-/

set_option maxRecDepth 100000

namespace AndroidBot

/-- A merged AOSP change record; source fields `_number` and `subject`
(from `fetch_aosp_changes` / dict access `c.get('_number')`,
`c.get('subject')`). -/
structure Change where
  number : Nat
  subject : String
deriving DecidableEq, Repr

/-- A blog feed entry; source fields `title` and `link`. -/
structure BlogEntry where
  title : String
  link : String
deriving DecidableEq, Repr

/-- The decoded `state.json` document: one recognized field `seen_ids`. -/
structure StateJson where
  seen_ids : List String
deriving DecidableEq, Repr

/-- The on-disk state file: missing, unreadable/unparsable, or a decoded
JSON document. -/
inductive StateFile where
  | absent
  | corrupt
  | good (s : StateJson)
deriving DecidableEq, Repr

/-- Python `l[-n:]` on a list: the last `n` elements (all of them when the
list is shorter). -/
def takeLast (n : Nat) (l : List α) : List α :=
  l.drop (l.length - n)

/-- `load_state` (android.py lines 16-23): missing file or any exception
while reading/parsing yields `{"seen_ids": []}`; otherwise the decoded
document is returned.  The function is total: corruption is swallowed,
never raised to the caller. -/
def load_state : StateFile → StateJson
  | .absent => ⟨[]⟩
  | .corrupt => ⟨[]⟩
  | .good s => s

/-- `save_state` (android.py lines 26-29): truncates `seen_ids` to the last
500 entries and overwrites the state file with the resulting document. -/
def save_state (state : StateJson) : StateFile :=
  .good ⟨takeLast 500 state.seen_ids⟩

/-- `https://android-review.googlesource.com/c/{_number}` as rendered in
`make_prompt` and `basic_fallback_posts`. -/
def change_url (c : Change) : String :=
  "https://android-review.googlesource.com/c/" ++ toString c.number

/-- `basic_fallback_posts` (android.py lines 92-99): one literal line per
record, change records first, truncated to `limit` (the source's default
argument is 5, passed explicitly here). -/
def basic_fallback_posts (changes : List Change) (blog_posts : List BlogEntry)
    (limit : Nat) : List String :=
  ((changes.map fun c => "AOSP change: " ++ c.subject ++ " " ++ change_url c) ++
   (blog_posts.map fun e => "Android blog: " ++ e.title ++ " " ++ e.link)).take limit

/-- Python truthiness of `os.getenv` results: `not GEMINI_API_KEY` is true
iff the variable is unset or the empty string. -/
def opt_str_falsy : Option String → Bool
  | none => true
  | some s => s == ""

/-- Outcome of `json.loads(text[start:end])` followed by
`data.get("posts", [])` inside the inner `try` of `generate_posts`:
`err` = `json.loads` raised, or the decoded value was not a dict (so
`.get` raised `AttributeError`); `obj p` = a dict decoded, with `p = some l`
when the key `"posts"` held the list `l` of strings and `p = none` when the
key was missing (the `.get` default then gives `[]`).  A dict whose
`"posts"` value is not a list of strings is outside the claims and not
modelled. -/
inductive JsonOutcome where
  | err
  | obj (posts : Option (List String))
deriving DecidableEq, Repr

/-- Python `text.find(ch)`: index of the first occurrence, `-1` if absent. -/
def py_find (s : String) (ch : Char) : Int :=
  match s.data.findIdx? (fun x => x == ch) with
  | some i => (i : Int)
  | none => -1

/-- Python `text.rfind(ch)`: index of the last occurrence, `-1` if absent. -/
def py_rfind (s : String) (ch : Char) : Int :=
  match s.data.reverse.findIdx? (fun x => x == ch) with
  | some i => ((s.data.length - 1 - i : Nat) : Int)
  | none => -1

/-- Clamp a Python slice bound to an index of a sequence of length `n`
(negative bounds count from the end). -/
def py_slice_idx (n : Nat) (i : Int) : Nat :=
  if i < 0 then (i + n).toNat else min i.toNat n

/-- Python `l[a:b]` with possibly negative bounds. -/
def py_slice (l : List α) (a b : Int) : List α :=
  (l.take (py_slice_idx l.length b)).drop (py_slice_idx l.length a)

/-- The extraction step of `generate_posts` (android.py lines 116-118):
`start = text.find("{"); end = text.rfind("}") + 1; text[start:end]`. -/
def extract_braced (text : String) : String :=
  let start := py_find text (Char.ofNat 123)
  let stop := py_rfind text (Char.ofNat 125) + 1
  ⟨py_slice text.data start stop⟩

/-- The characters Python `str.strip()` removes. -/
def py_ws : List Char := [' ', '\t', '\n', '\r', Char.ofNat 11, Char.ofNat 12]

/-- Python `s.strip(chars)`: remove the given characters from both ends. -/
def py_strip_chars (bad : List Char) (s : String) : String :=
  ⟨((s.data.dropWhile (fun c => bad.contains c)).reverse.dropWhile
      (fun c => bad.contains c)).reverse⟩

/-- Python `s.strip()`. -/
def py_strip (s : String) : String :=
  py_strip_chars py_ws s

/-- The strip set of `line.strip("-• ")`. -/
def bullet_chars : List Char := ['-', '•', ' ']

/-- Python `"…".split("\n")` on the character list: split at every newline,
keeping empty segments (`"".split("\n") == [""]`, `"a\n".split("\n") ==
["a", ""]`). -/
def split_newlines : List Char → List (List Char)
  | [] => [[]]
  | c :: rest =>
    match split_newlines rest with
    | [] => [[c]]
    | h :: t => if c = '\n' then [] :: h :: t else (c :: h) :: t

/-- Python `text.split("\n")`. -/
def py_split_nl (s : String) : List String :=
  (split_newlines s.data).map fun l => ⟨l⟩

/-- The line-based degradation of `generate_posts` (android.py lines
121-122): `[line.strip("-• ").strip() for line in text.split("\n") if
line.strip()]`. -/
def line_heuristic (text : String) : List String :=
  ((py_split_nl text).filter fun l => !(py_strip l == "")).map
    fun l => py_strip (py_strip_chars bullet_chars l)

/-- `generate_posts` (android.py lines 102-128).  `api_key` is
`GEMINI_API_KEY`; `decode` stands for `json.loads` + `.get("posts", [])`
on the extracted substring; `ai_resp` is `resp.text` of the model call,
`none` when anything in the outer `try` (client init, prompt render, model
call, `.text` access) raised.  The embedding is a total function: every
exception path of the source resolves to a returned list. -/
def generate_posts (api_key : Option String) (decode : String → JsonOutcome)
    (ai_resp : Option String) (changes : List Change)
    (blog_posts : List BlogEntry) : List String :=
  if opt_str_falsy api_key then basic_fallback_posts changes blog_posts 5
  else
    match ai_resp with
    | none => basic_fallback_posts changes blog_posts 5
    | some text =>
      let posts :=
        match decode (extract_braced text) with
        | .obj p => p.getD []
        | .err => line_heuristic text
      if posts.isEmpty then basic_fallback_posts changes blog_posts 5 else posts

/-- One outbound Telegram message as assembled by the code:
`disable_web_page_preview = none` when the keyword was omitted,
`some false` when passed explicitly as `False`. -/
structure TgMessage where
  chat_id : String
  text : String
  disable_web_page_preview : Option Bool
deriving DecidableEq, Repr

/-- `send_posts_to_telegram` (android.py lines 132-145), returning the
messages handed to the Telegram SDK. -/
def send_posts_to_telegram (chat_id : String) (posts : List String) :
    List TgMessage :=
  if posts.isEmpty then
    [⟨chat_id, "No new Android/AOSP topics.", none⟩]
  else
    let header := "🤖 Android/AOSP updates:\n\n"
    let body := String.intercalate "\n\n"
      (posts.enum.map fun ip => toString (ip.1 + 1) ++ ". " ++ ip.2)
    let footer := "\n\n(Ready to post!)"
    [⟨chat_id, header ++ body ++ footer, some false⟩]

/-- Derived identifier of a change, `f"change:{c.get('_number')}"`. -/
def change_id (c : Change) : String :=
  "change:" ++ toString c.number

/-- Derived identifier of a blog entry, `f"blog:{e.link}"`. -/
def blog_id (e : BlogEntry) : String :=
  "blog:" ++ e.link

/-- `fresh_changes` (android.py line 160): records whose derived id is not
in the seen set (`set(state.get("seen_ids", []))`; membership in the set
equals membership in the list). -/
def fresh_changes (seen : List String) (changes : List Change) : List Change :=
  changes.filter fun c => !(seen.contains (change_id c))

/-- `fresh_blog` (android.py line 161). -/
def fresh_blog (seen : List String) (blog_posts : List BlogEntry) :
    List BlogEntry :=
  blog_posts.filter fun e => !(seen.contains (blog_id e))

/-- Result of one run of `main`: the messages sent, the state file at the
end of the run, and whether `generate_posts` was reached. -/
structure RunResult where
  messages : List TgMessage
  file : StateFile
  generator_called : Bool
deriving DecidableEq, Repr

/-- `main` (android.py lines 147-176) after the two fetches: `changes` and
`blog_posts` are the fetched lists, `file` the state file found on disk.
The fetch steps themselves are fail-fast pass-through collaborators and
take no part in the claims. -/
def main (chat_id : String) (api_key : Option String)
    (decode : String → JsonOutcome) (ai_resp : Option String)
    (file : StateFile) (changes : List Change)
    (blog_posts : List BlogEntry) : RunResult :=
  let state := load_state file
  let seen := state.seen_ids
  let fc := fresh_changes seen changes
  let fb := fresh_blog seen blog_posts
  if fc.isEmpty && fb.isEmpty then
    { messages := send_posts_to_telegram chat_id
        ["No new items. Everything already processed."],
      file := file,
      generator_called := false }
  else
    let posts := generate_posts api_key decode ai_resp fc fb
    let used_ids := fc.map change_id ++ fb.map blog_id
    let state2 : StateJson := ⟨state.seen_ids ++ used_ids⟩
    { messages := send_posts_to_telegram chat_id posts,
      file := save_state state2,
      generator_called := true }

/-- The line-based transformation exactly as the spec sentence words it for
the degradation path: keep the non-empty lines, strip *leading* bullet/dash
decoration, then strip surrounding whitespace.  Used to compare the spec's
wording with the code's `line.strip("-• ").strip()`, which strips the
decoration characters from both ends. -/
def spec_lines_leading (text : String) : List String :=
  ((py_split_nl text).filter fun l => !(l == "")).map
    fun l => py_strip ⟨l.data.dropWhile fun c => bullet_chars.contains c⟩

/-- A stand-in for `json.loads` + `.get("posts", [])` consistent with JSON
semantics at the inputs probed by the development: the document holding an
empty list under `"posts"` decodes to exactly that; nothing else probed
through this stand-in is valid JSON. -/
def decode_empty_posts : String → JsonOutcome :=
  fun s => if s = "\x7b\"posts\": []\x7d" then .obj (some []) else .err

/-- A stand-in for `json.loads` + `.get("posts", [])` consistent with JSON
semantics at the inputs probed by the development: the document holding
`["a", "b"]` under `"posts"` decodes to exactly that list; nothing else
probed through this stand-in is valid JSON. -/
def decode_ab : String → JsonOutcome :=
  fun s => if s = "\x7b\"posts\": [\"a\", \"b\"]\x7d" then .obj (some ["a", "b"]) else .err

/-- A decode stand-in for runs whose AI response contains no decodable JSON
at all (`json.loads` raises on every substring the code extracts there). -/
def decode_fail : String → JsonOutcome := fun _ => .err

/-- Prior state for the cap-eviction scenario: the derived id `change:0`
followed by 499 other entries, filling the file to exactly 500 ids. -/
def evict_prior : StateJson := ⟨"change:0" :: List.replicate 499 "x"⟩

/-- Fetched change list for the cap-eviction scenario: one record already
seen (number 0) and one fresh record (number 1); the remote data is the
same in both runs. -/
def evict_fetched : List Change := [⟨0, "a"⟩, ⟨1, "b"⟩]

/-- First run of the cap-eviction scenario. -/
def evict_run1 : RunResult :=
  main "chat" none decode_fail none (.good evict_prior) evict_fetched []

/-- Second run of the cap-eviction scenario, on the state file left by the
first run, with the identical fetched lists. -/
def evict_run2 : RunResult :=
  main "chat" none decode_fail none evict_run1.file evict_fetched []

/-! ## Helper lemmas -/

theorem takeLast_of_le {α : Type _} {n : Nat} {l : List α} (h : l.length ≤ n) :
    takeLast n l = l := by
  unfold takeLast
  rw [Nat.sub_eq_zero_of_le h, List.drop_zero]

theorem contains_eq_decide_mem (l : List String) (x : String) :
    l.contains x = decide (x ∈ l) :=
  List.elem_eq_mem x l

theorem fresh_changes_eq_nil {seen : List String} {changes : List Change}
    (h : ∀ c ∈ changes, change_id c ∈ seen) :
    fresh_changes seen changes = [] := by
  unfold fresh_changes
  rw [List.filter_eq_nil_iff]
  intro c hc
  simp [contains_eq_decide_mem, h c hc]

theorem fresh_blog_eq_nil {seen : List String} {blog_posts : List BlogEntry}
    (h : ∀ e ∈ blog_posts, blog_id e ∈ seen) :
    fresh_blog seen blog_posts = [] := by
  unfold fresh_blog
  rw [List.filter_eq_nil_iff]
  intro e he
  simp [contains_eq_decide_mem, h e he]

theorem main_of_empty (chat_id : String) (api_key : Option String)
    (decode : String → JsonOutcome) (ai_resp : Option String)
    (file : StateFile) (changes : List Change) (blog_posts : List BlogEntry)
    (h1 : fresh_changes (load_state file).seen_ids changes = [])
    (h2 : fresh_blog (load_state file).seen_ids blog_posts = []) :
    main chat_id api_key decode ai_resp file changes blog_posts
      = { messages := send_posts_to_telegram chat_id
            ["No new items. Everything already processed."],
          file := file,
          generator_called := false } := by
  unfold main
  rw [if_pos (by simp [h1, h2])]

theorem main_of_nonempty (chat_id : String) (api_key : Option String)
    (decode : String → JsonOutcome) (ai_resp : Option String)
    (file : StateFile) (changes : List Change) (blog_posts : List BlogEntry)
    (h : ¬(fresh_changes (load_state file).seen_ids changes = []
           ∧ fresh_blog (load_state file).seen_ids blog_posts = [])) :
    main chat_id api_key decode ai_resp file changes blog_posts
      = { messages := send_posts_to_telegram chat_id
            (generate_posts api_key decode ai_resp
              (fresh_changes (load_state file).seen_ids changes)
              (fresh_blog (load_state file).seen_ids blog_posts)),
          file := save_state ⟨(load_state file).seen_ids
            ++ ((fresh_changes (load_state file).seen_ids changes).map change_id
                ++ (fresh_blog (load_state file).seen_ids blog_posts).map blog_id)⟩,
          generator_called := true } := by
  unfold main
  rw [if_neg (by simp only [Bool.and_eq_true, List.isEmpty_eq_true]; exact h)]

theorem count_map_change_id (l : List Change) (x : String) :
    (l.map change_id).count x = l.countP fun c => change_id c == x := by
  rw [List.count_eq_countP, List.countP_map]
  rfl

theorem count_map_blog_id (l : List BlogEntry) (x : String) :
    (l.map blog_id).count x = l.countP fun e => blog_id e == x := by
  rw [List.count_eq_countP, List.countP_map]
  rfl

theorem basic_fallback_ne_nil (changes : List Change)
    (blog_posts : List BlogEntry) (h : ¬(changes = [] ∧ blog_posts = [])) :
    basic_fallback_posts changes blog_posts 5 ≠ [] := by
  unfold basic_fallback_posts
  intro hc
  rw [List.take_eq_nil_iff] at hc
  rcases hc with hc | hc
  · exact absurd hc (by decide)
  · rcases List.append_eq_nil.mp hc with ⟨hc1, hc2⟩
    exact h ⟨List.map_eq_nil_iff.mp hc1, List.map_eq_nil_iff.mp hc2⟩

/-! ## Claim theorems -/

/-- Claim C1: for every prior identifier list `S` and the fresh record
lists of a successful run (at least one fresh record), the persisted
`seen_ids` after the run equals `S` with the derived identifiers of the
fresh records appended, truncated to the most recent 500 entries; and
persisting more than 500 identifiers and reloading yields exactly the most
recent 500. -/
theorem c1_persisted_state (chat_id : String) (api_key : Option String)
    (decode : String → JsonOutcome) (ai_resp : Option String)
    (S : List String) (changes : List Change) (blog_posts : List BlogEntry)
    (h : ¬(fresh_changes S changes = [] ∧ fresh_blog S blog_posts = [])) :
    (main chat_id api_key decode ai_resp (.good ⟨S⟩) changes blog_posts).file
      = .good ⟨takeLast 500 (S ++ ((fresh_changes S changes).map change_id
          ++ (fresh_blog S blog_posts).map blog_id))⟩
    ∧ ∀ ids : List String, 500 < ids.length →
        (load_state (save_state ⟨ids⟩)).seen_ids = ids.drop (ids.length - 500)
        ∧ (load_state (save_state ⟨ids⟩)).seen_ids.length = 500 := by
  constructor
  · rw [main_of_nonempty chat_id api_key decode ai_resp (.good ⟨S⟩) changes
      blog_posts h]
    rfl
  · intro ids hlen
    refine ⟨rfl, ?_⟩
    show (takeLast 500 ids).length = 500
    unfold takeLast
    rw [List.length_drop]
    omega

/-- Witness for C1: a concrete successful run appends the fresh change's
derived id, and a 600-entry list reloads as its most recent 500 entries. -/
theorem c1_witness :
    (main "chat" none decode_fail none (.good ⟨["a"]⟩) [⟨1, "x"⟩] []).file
      = .good ⟨["a", "change:1"]⟩
    ∧ (load_state (save_state ⟨List.replicate 600 "z"⟩)).seen_ids
        = List.replicate 500 "z" := by
  have h := c1_persisted_state "chat" none decode_fail none ["a"] [⟨1, "x"⟩] []
    (by decide)
  constructor
  · exact h.1.trans (by decide)
  · have h2 := (h.2 (List.replicate 600 "z") (by simp)).1
    rw [h2]
    decide

/-- Claim C2: the Seen-Set Filter outputs exactly the subsequence of each
fetched list whose derived identifier is absent from the persisted set, in
original order; an identifier present in the seen state is never output as
fresh. -/
theorem c2_seen_set_filter (seen : List String) (changes : List Change)
    (blog_posts : List BlogEntry) :
    fresh_changes seen changes
      = changes.filter (fun c => decide (change_id c ∉ seen))
    ∧ fresh_blog seen blog_posts
      = blog_posts.filter (fun e => decide (blog_id e ∉ seen))
    ∧ (fresh_changes seen changes).Sublist changes
    ∧ (fresh_blog seen blog_posts).Sublist blog_posts
    ∧ (∀ c ∈ fresh_changes seen changes, change_id c ∉ seen)
    ∧ (∀ e ∈ fresh_blog seen blog_posts, blog_id e ∉ seen) := by
  refine ⟨?_, ?_, List.filter_sublist _, List.filter_sublist _, ?_, ?_⟩
  · exact List.filter_congr fun c _ => by simp [contains_eq_decide_mem]
  · exact List.filter_congr fun e _ => by simp [contains_eq_decide_mem]
  · intro c hc
    have := (List.mem_filter.mp hc).2
    simpa [contains_eq_decide_mem] using this
  · intro e he
    have := (List.mem_filter.mp he).2
    simpa [contains_eq_decide_mem] using this

/-- Witness for C2: with `change:1` already seen, only the record numbered
2 passes the filter, and its derived id is indeed absent from the set. -/
theorem c2_witness :
    fresh_changes ["change:1"] [⟨1, "a"⟩, ⟨2, "b"⟩] = [⟨2, "b"⟩]
    ∧ change_id ⟨2, "b"⟩ ∉ ["change:1"] := by
  have h := c2_seen_set_filter ["change:1"] [⟨1, "a"⟩, ⟨2, "b"⟩] []
  refine ⟨h.1.trans (by decide), ?_⟩
  exact h.2.2.2.2.1 ⟨2, "b"⟩ (by decide)

/-- Claim C8: `load_state` is total; a missing file and a corrupt file both
yield the empty identifier set, a readable file yields its decoded
document, and a file just written by `save_state` reloads as the truncated
identifier list that was persisted. -/
theorem c8_load_state_total :
    load_state .absent = ⟨[]⟩
    ∧ load_state .corrupt = ⟨[]⟩
    ∧ (∀ s : StateJson, load_state (.good s) = s)
    ∧ (∀ s : StateJson,
        load_state (save_state s) = ⟨takeLast 500 s.seen_ids⟩) :=
  ⟨rfl, rfl, fun _ => rfl, fun _ => rfl⟩

/-- Claim C9: for every non-empty draft list the Notifier produces exactly
one outbound message: the fixed header line, each draft prefixed with its
1-based number and separated by a blank line, and the fixed footer line,
with link previews enabled (`disable_web_page_preview=False`). -/
theorem c9_notifier (chat_id : String) (posts : List String)
    (h : posts ≠ []) :
    send_posts_to_telegram chat_id posts
      = [⟨chat_id,
          "🤖 Android/AOSP updates:\n\n"
            ++ String.intercalate "\n\n"
                (posts.enum.map fun ip => toString (ip.1 + 1) ++ ". " ++ ip.2)
            ++ "\n\n(Ready to post!)",
          some false⟩]
    ∧ (send_posts_to_telegram chat_id posts).length = 1 := by
  unfold send_posts_to_telegram
  rw [if_neg (by simp [h])]
  exact ⟨rfl, rfl⟩

/-- Witness for C9: the two-draft list produces the single fully formatted
message. -/
theorem c9_witness :
    send_posts_to_telegram "chat" ["a", "b"]
      = [⟨"chat", "🤖 Android/AOSP updates:\n\n1. a\n\n2. b\n\n(Ready to post!)",
          some false⟩] := by
  have h := c9_notifier "chat" ["a", "b"] (by decide)
  exact h.1.trans (by decide)

/-- Claim C3, amended: a run in which both filtered lists are empty sends
the synthetic "nothing new" notification, makes no generation call and
leaves the state file untouched; and running twice in a row with the same
fetched data yields the "nothing new" message on the second run without
mutating persisted state, provided the prior identifier list together with
this run's appended identifiers stays within the 500-entry cap (so truncation
evicts no identifier of a currently fetched record). -/
theorem c3_nothing_new (chat_id : String) (api_key : Option String)
    (decode : String → JsonOutcome) (ai_resp : Option String)
    (file : StateFile) (S : List String) (changes : List Change)
    (blog_posts : List BlogEntry)
    (hemp : fresh_changes (load_state file).seen_ids changes = []
            ∧ fresh_blog (load_state file).seen_ids blog_posts = [])
    (hcap : (S ++ ((fresh_changes S changes).map change_id
              ++ (fresh_blog S blog_posts).map blog_id)).length ≤ 500) :
    main chat_id api_key decode ai_resp file changes blog_posts
      = { messages := send_posts_to_telegram chat_id
            ["No new items. Everything already processed."],
          file := file,
          generator_called := false }
    ∧ main chat_id api_key decode ai_resp
        (main chat_id api_key decode ai_resp (.good ⟨S⟩) changes blog_posts).file
        changes blog_posts
      = { messages := send_posts_to_telegram chat_id
            ["No new items. Everything already processed."],
          file := (main chat_id api_key decode ai_resp (.good ⟨S⟩) changes
            blog_posts).file,
          generator_called := false } := by
  constructor
  · exact main_of_empty chat_id api_key decode ai_resp file changes blog_posts
      hemp.1 hemp.2
  · by_cases h1 : fresh_changes S changes = [] ∧ fresh_blog S blog_posts = []
    · have hrun1 := main_of_empty chat_id api_key decode ai_resp (.good ⟨S⟩)
        changes blog_posts h1.1 h1.2
      rw [hrun1]
      exact main_of_empty chat_id api_key decode ai_resp (.good ⟨S⟩) changes
        blog_posts h1.1 h1.2
    · have hrun1 := main_of_nonempty chat_id api_key decode ai_resp (.good ⟨S⟩)
        changes blog_posts h1
      rw [hrun1]
      have hfile : save_state ⟨(load_state (StateFile.good ⟨S⟩)).seen_ids
          ++ ((fresh_changes (load_state (StateFile.good ⟨S⟩)).seen_ids
                changes).map change_id
              ++ (fresh_blog (load_state (StateFile.good ⟨S⟩)).seen_ids
                blog_posts).map blog_id)⟩
          = .good ⟨S ++ ((fresh_changes S changes).map change_id
              ++ (fresh_blog S blog_posts).map blog_id)⟩ := by
        dsimp only [load_state, save_state]
        rw [takeLast_of_le hcap]
      rw [hfile]
      have hidc : ∀ c ∈ changes,
          change_id c ∈ S ++ ((fresh_changes S changes).map change_id
            ++ (fresh_blog S blog_posts).map blog_id) := by
        intro c hc
        rw [List.mem_append]
        by_cases hS : change_id c ∈ S
        · exact .inl hS
        · refine .inr (List.mem_append.mpr (.inl ?_))
          refine List.mem_map_of_mem change_id ?_
          exact List.mem_filter.mpr ⟨hc, by simp [contains_eq_decide_mem, hS]⟩
      have hide : ∀ e ∈ blog_posts,
          blog_id e ∈ S ++ ((fresh_changes S changes).map change_id
            ++ (fresh_blog S blog_posts).map blog_id) := by
        intro e he
        rw [List.mem_append]
        by_cases hS : blog_id e ∈ S
        · exact .inl hS
        · refine .inr (List.mem_append.mpr (.inr ?_))
          refine List.mem_map_of_mem blog_id ?_
          exact List.mem_filter.mpr ⟨he, by simp [contains_eq_decide_mem, hS]⟩
      exact main_of_empty chat_id api_key decode ai_resp _ changes blog_posts
        (fresh_changes_eq_nil hidc) (fresh_blog_eq_nil hide)

/-- Witness for C3 (amended): a concrete quiet run leaves the state file
alone, and two runs in a row over already-seen data both report "nothing
new". -/
theorem c3_witness :
    main "chat" none decode_fail none (.good ⟨["change:1"]⟩) [⟨1, "x"⟩] []
      = { messages := send_posts_to_telegram "chat"
            ["No new items. Everything already processed."],
          file := .good ⟨["change:1"]⟩,
          generator_called := false } := by
  have h := c3_nothing_new "chat" none decode_fail none
    (.good ⟨["change:1"]⟩) ["change:1"] [⟨1, "x"⟩] []
    (by constructor <;> decide) (by decide)
  exact h.1

/-- Counterexample for C3 as stated: with a prior state file holding
exactly 500 identifiers whose oldest entry is the derived id of a record
the remote still serves, the first run's cap truncation evicts that id, so
the second run over identical fetched data processes the record again:
it calls the generator, sends a normal update message rather than the
"nothing new" one, and rewrites the state file. -/
theorem c3_counterexample :
    evict_run1.generator_called = true
    ∧ evict_run2.generator_called = true
    ∧ evict_run2.file ≠ evict_run1.file
    ∧ evict_run2.messages
        ≠ send_posts_to_telegram "chat"
            ["No new items. Everything already processed."] := by
  refine ⟨by decide, by decide, by decide, by decide⟩

/-- Claim C4: `generate_posts` is total on every input with at least one
fresh record (exceptions from the AI call are caught: the embedding maps
the raising call to `ai_resp = none`): the returned draft list is
non-empty, a raising call resolves to the deterministic fallback, and so
does a parse that yields an empty list (whether the decoded object held an
empty `"posts"` list or decoding failed and the line heuristic found no
lines). -/
theorem c4_generate_safe (api_key : Option String)
    (decode : String → JsonOutcome) (ai_resp : Option String)
    (changes : List Change) (blog_posts : List BlogEntry)
    (h : ¬(changes = [] ∧ blog_posts = [])) :
    generate_posts api_key decode ai_resp changes blog_posts ≠ []
    ∧ generate_posts api_key decode none changes blog_posts
        = basic_fallback_posts changes blog_posts 5
    ∧ ∀ text : String,
        (decode (extract_braced text) = .obj (some [])
          ∨ (decode (extract_braced text) = .err ∧ line_heuristic text = [])) →
        generate_posts api_key decode (some text) changes blog_posts
          = basic_fallback_posts changes blog_posts 5 := by
  have hfb := basic_fallback_ne_nil changes blog_posts h
  refine ⟨?_, ?_, ?_⟩
  · unfold generate_posts
    split
    · exact hfb
    · cases ai_resp with
      | none => exact hfb
      | some text =>
        show (if List.isEmpty _ then _ else _) ≠ []
        split
        · exact hfb
        · next hne => simpa using hne
  · unfold generate_posts
    split <;> rfl
  · intro text hdec
    unfold generate_posts
    split
    · rfl
    · show (if List.isEmpty _ then _ else _) = _
      rcases hdec with hdec | ⟨hdec, hlines⟩
      · rw [hdec]
        rfl
      · rw [hdec, hlines]
        rfl

/-- Witness for C4: with one fresh change record, a raising AI call and an
AI reply decoding to an empty `"posts"` list both resolve to the non-empty
deterministic fallback. -/
theorem c4_witness :
    generate_posts (some "key") decode_empty_posts
        (some "\x7b\"posts\": []\x7d") [⟨2, "t"⟩] [] ≠ []
    ∧ generate_posts (some "key") decode_empty_posts none [⟨2, "t"⟩] []
        = ["AOSP change: t https://android-review.googlesource.com/c/2"]
    ∧ generate_posts (some "key") decode_empty_posts
        (some "\x7b\"posts\": []\x7d") [⟨2, "t"⟩] []
        = ["AOSP change: t https://android-review.googlesource.com/c/2"] := by
  have h := c4_generate_safe (some "key") decode_empty_posts
    (some "\x7b\"posts\": []\x7d") [⟨2, "t"⟩] [] (by decide)
  refine ⟨h.1, h.2.1.trans (by decide), ?_⟩
  exact (h.2.2 "\x7b\"posts\": []\x7d" (.inl (by decide))).trans (by decide)

/-- Claim C7: with no AI credential configured (variable unset or empty,
both falsy in the source's `if not GEMINI_API_KEY`), the draft list is the
deterministic fallback: one literal line per fresh record, change records
before blog entries, truncated to the fixed cap of 5, so the draft count
is the fresh-record count capped at 5. -/
theorem c7_no_credential_fallback (api_key : Option String)
    (decode : String → JsonOutcome) (ai_resp : Option String)
    (changes : List Change) (blog_posts : List BlogEntry)
    (h : opt_str_falsy api_key = true) :
    generate_posts api_key decode ai_resp changes blog_posts
      = ((changes.map fun c => "AOSP change: " ++ c.subject ++ " " ++ change_url c)
          ++ (blog_posts.map fun e => "Android blog: " ++ e.title ++ " " ++ e.link)).take 5
    ∧ (generate_posts api_key decode ai_resp changes blog_posts).length
        = min (changes.length + blog_posts.length) 5 := by
  have heq : generate_posts api_key decode ai_resp changes blog_posts
      = basic_fallback_posts changes blog_posts 5 := by
    unfold generate_posts
    rw [if_pos h]
  refine ⟨heq, ?_⟩
  rw [heq]
  unfold basic_fallback_posts
  rw [List.length_take, List.length_append, List.length_map, List.length_map,
    Nat.min_comm]

/-- Witness for C7: the spec's end-to-end scenario, two fresh change
records and no credential, yields exactly the two templated drafts. -/
theorem c7_witness :
    generate_posts none decode_fail none [⟨101, "Fix X"⟩, ⟨102, "Fix Y"⟩] []
      = ["AOSP change: Fix X https://android-review.googlesource.com/c/101",
         "AOSP change: Fix Y https://android-review.googlesource.com/c/102"]
    ∧ (generate_posts none decode_fail none
        [⟨101, "Fix X"⟩, ⟨102, "Fix Y"⟩] []).length = 2 := by
  have h := c7_no_credential_fallback none decode_fail none
    [⟨101, "Fix X"⟩, ⟨102, "Fix Y"⟩] [] (by decide)
  exact ⟨h.1.trans (by decide), h.2.trans (by decide)⟩

/-- Claim C5, amended: whenever the substring from the first brace to the
last brace of the AI response decodes as a JSON object holding a
*non-empty* list of strings under `"posts"`, the generator returns exactly
that list (an empty decoded list is replaced by the deterministic
fallback, per the code's `posts if posts else ...`). -/
theorem c5_json_extraction (api_key : Option String)
    (decode : String → JsonOutcome) (text : String) (l : List String)
    (changes : List Change) (blog_posts : List BlogEntry)
    (hkey : opt_str_falsy api_key = false)
    (hdec : decode (extract_braced text) = .obj (some l))
    (hne : l ≠ []) :
    generate_posts api_key decode (some text) changes blog_posts = l := by
  unfold generate_posts
  rw [if_neg (by simp [hkey])]
  show (if List.isEmpty _ then _ else _) = l
  rw [hdec]
  show (if (some l).getD [] |>.isEmpty then _ else (some l).getD []) = l
  rw [if_neg (by simpa using hne)]
  rfl

/-- Witness for C5 (amended): the spec's resilience example, an AI reply
with noise around the JSON object, yields exactly `["a", "b"]`. -/
theorem c5_witness :
    generate_posts (some "key") decode_ab
        (some "noise \x7b\"posts\": [\"a\", \"b\"]\x7d trailing") [⟨1, "s"⟩] []
      = ["a", "b"] :=
  c5_json_extraction (some "key") decode_ab
    "noise \x7b\"posts\": [\"a\", \"b\"]\x7d trailing" ["a", "b"] [⟨1, "s"⟩] []
    (by decide) (by decide) (by decide)

/-- Counterexample for C5 as stated: a response whose braced substring
decodes as an object holding the (vacuously string-listed) empty list
under `"posts"` does not make the generator return that empty list — the
fallback is substituted instead. -/
theorem c5_counterexample :
    decode_empty_posts (extract_braced "\x7b\"posts\": []\x7d")
      = .obj (some [])
    ∧ generate_posts (some "key") decode_empty_posts
        (some "\x7b\"posts\": []\x7d") [⟨1, "s"⟩] []
      = ["AOSP change: s https://android-review.googlesource.com/c/1"]
    ∧ generate_posts (some "key") decode_empty_posts
        (some "\x7b\"posts\": []\x7d") [⟨1, "s"⟩] [] ≠ [] := by
  refine ⟨by decide, by decide, by decide⟩

/-- Claim C6, amended: when structured decoding of the braced substring
fails, the generator falls back to the line heuristic: it keeps every line
whose whitespace-stripped form is non-empty and strips the characters
`-`, `•` and space from *both* ends of the line followed by a whitespace
strip (the code's `line.strip("-• ").strip()`), returning that list when
it is non-empty; in particular `"- idea one\n- idea two"` yields
`["idea one", "idea two"]`. -/
theorem c6_line_degradation (api_key : Option String)
    (decode : String → JsonOutcome) (text : String) (changes : List Change)
    (blog_posts : List BlogEntry)
    (hkey : opt_str_falsy api_key = false)
    (hdec : decode (extract_braced text) = .err)
    (hne : line_heuristic text ≠ []) :
    generate_posts api_key decode (some text) changes blog_posts
      = ((py_split_nl text).filter fun l => !(py_strip l == "")).map
          fun l => py_strip (py_strip_chars bullet_chars l) := by
  unfold generate_posts
  rw [if_neg (by simp [hkey])]
  show (if List.isEmpty _ then _ else _) = _
  rw [hdec]
  show (if (line_heuristic text).isEmpty then _ else line_heuristic text) = _
  rw [if_neg (by simpa using hne)]
  rfl

/-- Witness for C6 (amended): the spec's degradation example with two
bulleted lines yields the two stripped drafts. -/
theorem c6_witness :
    generate_posts (some "key") decode_fail (some "- idea one\n- idea two")
        [⟨1, "s"⟩] []
      = ["idea one", "idea two"] := by
  have h := c6_line_degradation (some "key") decode_fail
    "- idea one\n- idea two" [⟨1, "s"⟩] [] (by decide) (by decide) (by decide)
  exact h.trans (by decide)

/-- Counterexample for C6 as stated: on the brace-free response `"idea -"`
the code strips the trailing dash (`strip("-• ")` acts on both ends) and
returns `["idea"]`, while stripping only leading bullet/dash decoration
and surrounding whitespace, as the claim words it, would keep `"idea -"`. -/
theorem c6_counterexample :
    generate_posts (some "key") decode_fail (some "idea -") [⟨1, "s"⟩] []
      = ["idea"]
    ∧ spec_lines_leading "idea -" = ["idea -"]
    ∧ ("idea" : String) ≠ "idea -" := by
  refine ⟨by decide, by decide, by decide⟩

/-- Claim C10: records sharing a derived identifier that is absent from
the seen set all pass the filter (the count of matching records is
preserved), and each occurrence appends the identifier once, so when the
cap does not truncate, the persisted `seen_ids` holds the identifier once
per prior occurrence plus once per matching record of this run — it can
therefore contain duplicates; deduplication happens only against prior
runs, never within a run. -/
theorem c10_within_run_duplicates (chat_id : String) (api_key : Option String)
    (decode : String → JsonOutcome) (ai_resp : Option String)
    (S : List String) (changes : List Change) (blog_posts : List BlogEntry)
    (x : String) (hx : x ∉ S)
    (hcap : (S ++ ((fresh_changes S changes).map change_id
              ++ (fresh_blog S blog_posts).map blog_id)).length ≤ 500)
    (hfresh : ¬(fresh_changes S changes = [] ∧ fresh_blog S blog_posts = [])) :
    (fresh_changes S changes).countP (fun c => change_id c == x)
      = changes.countP (fun c => change_id c == x)
    ∧ (fresh_blog S blog_posts).countP (fun e => blog_id e == x)
      = blog_posts.countP (fun e => blog_id e == x)
    ∧ ∃ s' : StateJson,
        (main chat_id api_key decode ai_resp (.good ⟨S⟩) changes
          blog_posts).file = .good s'
        ∧ s'.seen_ids.count x
            = S.count x + (changes.countP (fun c => change_id c == x)
                + blog_posts.countP (fun e => blog_id e == x)) := by
  have hc : (fresh_changes S changes).countP (fun c => change_id c == x)
      = changes.countP (fun c => change_id c == x) := by
    unfold fresh_changes
    rw [List.countP_filter]
    refine List.countP_congr fun c _ => ?_
    constructor
    · intro hb
      exact (Bool.and_eq_true _ _).mp hb |>.1
    · intro hb
      refine (Bool.and_eq_true _ _).mpr ⟨hb, ?_⟩
      have : change_id c = x := eq_of_beq hb
      simp [contains_eq_decide_mem, this, hx]
  have hb : (fresh_blog S blog_posts).countP (fun e => blog_id e == x)
      = blog_posts.countP (fun e => blog_id e == x) := by
    unfold fresh_blog
    rw [List.countP_filter]
    refine List.countP_congr fun e _ => ?_
    constructor
    · intro hbb
      exact (Bool.and_eq_true _ _).mp hbb |>.1
    · intro hbb
      refine (Bool.and_eq_true _ _).mpr ⟨hbb, ?_⟩
      have : blog_id e = x := eq_of_beq hbb
      simp [contains_eq_decide_mem, this, hx]
  refine ⟨hc, hb, ?_⟩
  refine ⟨⟨S ++ ((fresh_changes S changes).map change_id
    ++ (fresh_blog S blog_posts).map blog_id)⟩, ?_, ?_⟩
  · rw [main_of_nonempty chat_id api_key decode ai_resp (.good ⟨S⟩) changes
      blog_posts hfresh]
    dsimp only [load_state, save_state]
    rw [takeLast_of_le hcap]
  · dsimp only
    rw [List.count_append, List.count_append, count_map_change_id,
      count_map_blog_id, hc, hb]

/-- Witness for C10: two fetched change records with the same number 7 and
an empty prior state leave `"change:7"` twice in the persisted list. -/
theorem c10_witness :
    (fresh_changes [] [⟨7, "p"⟩, ⟨7, "q"⟩]).countP
        (fun c => change_id c == "change:7") = 2
    ∧ ∃ s' : StateJson,
        (main "chat" none decode_fail none (.good ⟨[]⟩)
          [⟨7, "p"⟩, ⟨7, "q"⟩] []).file = .good s'
        ∧ s'.seen_ids.count "change:7" = 2 := by
  have h := c10_within_run_duplicates "chat" none decode_fail none []
    [⟨7, "p"⟩, ⟨7, "q"⟩] [] "change:7" (by decide) (by decide) (by decide)
  obtain ⟨h1, _, s', hf, hcount⟩ := h
  exact ⟨h1.trans (by decide), s', hf, hcount.trans (by decide)⟩

end AndroidBot
